import Mathlib

/-!
Verification of the job-application lifecycle of the job-board service.

The development shallowly embeds the Application data model
(models/Application.js, models/Resume.js, job-board-platform/models/Job.js)
and the application route handlers (the POST create handler and the
PUT status-update handler of the application router) as executable Lean
functions over an explicit store, and proves the spec's claims about them.

Modelling conventions:
* Mongo ObjectIds are Nats; a request-supplied id is a `ReqId`, which can be
  absent (JS falsy: undefined/null/empty string), malformed (a string that
  fails ObjectId casting, so `findById` rejects with CastError), or a valid id.
* Timestamps are Nats, milliseconds since the epoch; the handler receives the
  current time `now` as a parameter.
* The store is four lists of records; `findById` is `List.find?` on the id,
  `findOne {jobId, candidateId}` is `List.find?` on both fields.
* The save in the create handler enforces the unique compound index on
  (candidateId, jobId) declared in models/Application.js: to model the race
  the spec discusses, the handler takes a list `raced` of applications
  committed by concurrent requests between the duplicate pre-check and the
  save; a duplicate present only in `raced` makes the save fail with the
  Mongo duplicate-key error (code 11000), which the catch block turns into
  the 409 response without `existingApplicationId`.
* Response bodies are modelled structurally: `ErrBody` carries exactly the
  fields the JSON error responses use (message, field, existingApplicationId,
  validValues, echoed id); dynamic `details` strings of 500 responses are not
  modelled.
-/

/-- Application status values, from the schema enum in models/Application.js. -/
def validStatuses : List String := ["applied", "shortlisted", "rejected"]

/-- A Job record (job-board-platform/models/Job.js). -/
structure Job where
  id : Nat
  title : String
  description : String
  location : String
  salary : Int
  employerId : Nat
deriving DecidableEq

/-- A Candidate record (job-board-platform/models/Candidate.js). -/
structure Candidate where
  id : Nat
  name : String
  email : String
deriving DecidableEq

/-- A Resume record (models/Resume.js). -/
structure Resume where
  id : Nat
  candidateId : Nat
  fileUrl : String
deriving DecidableEq

/-- An Application record (models/Application.js); `createdAt`/`updatedAt`
come from the schema's `timestamps: true` option. -/
structure Application where
  id : Nat
  jobId : Nat
  candidateId : Nat
  resumeId : Nat
  status : String
  appliedAt : Nat
  createdAt : Nat
  updatedAt : Nat
deriving DecidableEq

/-- The persistence store: one list per collection. -/
structure Store where
  jobs : List Job
  candidates : List Candidate
  resumes : List Resume
  apps : List Application
deriving DecidableEq

/-- `Job.findById`. -/
def findJob (db : Store) (i : Nat) : Option Job :=
  db.jobs.find? (fun x => x.id == i)

/-- `Candidate.findById`. -/
def findCandidate (db : Store) (i : Nat) : Option Candidate :=
  db.candidates.find? (fun x => x.id == i)

/-- `Resume.findById`. -/
def findResume (db : Store) (i : Nat) : Option Resume :=
  db.resumes.find? (fun x => x.id == i)

/-- An id as it arrives in a request body: absent (JS falsy), malformed
(ObjectId cast fails), or a valid id. -/
inductive ReqId where
  | missing : ReqId
  | malformed : String → ReqId
  | valid : Nat → ReqId
deriving DecidableEq

/-- The fields the JSON error responses of the application router use:
`message`, optional `field`, optional `existingApplicationId` (the 409
duplicate pre-check), optional `validValues` (the status-enum 400), and an
optional echoed `id`. -/
structure ErrBody where
  message : String
  field : Option String
  existingApplicationId : Option Nat
  validValues : Option (List String)
  id : Option Nat
deriving DecidableEq

/-- Outcome of one route handler: an error response or a success response
with body `α`; the Nat is the HTTP status code. -/
inductive RouteResult (α : Type) where
  | failure : Nat → ErrBody → RouteResult α
  | success : Nat → α → RouteResult α
deriving DecidableEq

/-- `getSalaryRange` from job-board-platform/models/Job.js. -/
def getSalaryRange (salary : Int) : String :=
  if salary < 50000 then "Entry Level"
  else if salary < 100000 then "Mid Level"
  else if salary < 200000 then "Senior Level"
  else "Executive Level"

/-- Index of the last '.' in a string, as JS `lastIndexOf` computes it
(JS returns -1 when absent, modelled as `none`). -/
def lastIndexOfDotAux : List Char → Nat → Option Nat → Option Nat
  | [], _, acc => acc
  | c :: cs, i, acc => lastIndexOfDotAux cs (i + 1) (if c = '.' then some i else acc)

/-- Index of the last '.' of a string, `none` when there is no '.'. -/
def lastIndexOfDot (s : String) : Option Nat :=
  lastIndexOfDotAux s.data 0 none

/-- JS `toLowerCase`, modelled character by character (agrees with it on the
ASCII strings at hand). -/
def toLowerStr (s : String) : String := ⟨s.data.map Char.toLower⟩

/-- `getFileExtension` from models/Resume.js: the lowercased substring after
the last '.', but only when that '.' sits at an index strictly greater than
0 (`lastDot > 0` in the source); otherwise "unknown". -/
def getFileExtension (fileUrl : String) : String :=
  match lastIndexOfDot fileUrl with
  | some k => if 0 < k then toLowerStr ⟨fileUrl.data.drop (k + 1)⟩ else "unknown"
  | none => "unknown"

/-- Modelled from the claim text of C9 (not from the source): the substring
after the last '.', and "unknown" exactly when the URL contains no '.'. -/
def claimedFileExtension (url : String) : String :=
  match lastIndexOfDot url with
  | some k => ⟨url.data.drop (k + 1)⟩
  | none => "unknown"

/-- `getStatusColor` from models/Application.js (object lookup with
`|| 'gray'` fallback). -/
def getStatusColor (status : String) : String :=
  if status = "applied" then "blue"
  else if status = "shortlisted" then "green"
  else if status = "rejected" then "red"
  else "gray"

/-- Milliseconds in a day, the divisor in `getDaysOld`. -/
def msPerDay : Nat := 1000 * 60 * 60 * 24

/-- `getDaysOld` from models/Application.js: ceiling of the absolute
time difference divided by one day. -/
def getDaysOld (now appliedAt : Nat) : Nat :=
  let diffTime := max now appliedAt - min now appliedAt
  (diffTime + (msPerDay - 1)) / msPerDay

/-- The created-application response body of the POST handler (the 201
response, after `populate` of job, candidate and resume). -/
structure CreatedView where
  id : Nat
  status : String
  appliedAt : Nat
  daysOld : Nat
  jobId : Nat
  jobTitle : String
  jobLocation : String
  jobSalary : Int
  candidateId : Nat
  candidateName : String
  candidateEmail : String
  resumeId : Nat
  resumeFileUrl : String
  createdAt : Nat
deriving DecidableEq

/-- The updated-application response body of the PUT status handler. -/
structure UpdatedView where
  id : Nat
  status : String
  statusColor : String
  appliedAt : Nat
  daysOld : Nat
  jobId : Nat
  jobTitle : String
  jobLocation : String
  jobSalary : Int
  candidateId : Nat
  candidateName : String
  candidateEmail : String
  resumeId : Nat
  resumeFileUrl : String
  updatedAt : Nat
deriving DecidableEq

/-- The POST create-application handler of the application router.

Follows the source order exactly: presence checks on the three ids, then the
three `findById` lookups (a malformed id rejects the `Promise.all` with a
CastError, answered 400 "Invalid ID format"; the presence checks run before
the lookups, so a missing id wins over a malformed one), then the
resume-ownership check, then the duplicate pre-check (`findOne` on jobId and
candidateId, answered 409 with `existingApplicationId`), then the save.

The save enforces the unique (candidateId, jobId) index against the store as
it stands at save time, `db.apps ++ raced`; losing the race raises the
duplicate-key error (code 11000) which the catch block answers with the 409
body that has no `existingApplicationId`. The populate of the 201 response
re-reads the job, candidate and resume collections, which this handler never
mutates, so it returns exactly the records the validation found. -/
def createApplication (db : Store) (raced : List Application)
    (jobIdReq candidateIdReq resumeIdReq : ReqId) (now newId : Nat) :
    RouteResult CreatedView × Store :=
  let committed : Store :=
    { jobs := db.jobs, candidates := db.candidates, resumes := db.resumes,
      apps := db.apps ++ raced }
  match jobIdReq, candidateIdReq, resumeIdReq with
  | .missing, _, _ =>
      (.failure 400 ⟨"Job ID is required", some "jobId", none, none, none⟩, committed)
  | _, .missing, _ =>
      (.failure 400 ⟨"Candidate ID is required", some "candidateId", none, none, none⟩, committed)
  | _, _, .missing =>
      (.failure 400 ⟨"Resume ID is required", some "resumeId", none, none, none⟩, committed)
  | .malformed _, _, _ =>
      (.failure 400 ⟨"Invalid ID format", some "jobId", none, none, none⟩, committed)
  | _, .malformed _, _ =>
      (.failure 400 ⟨"Invalid ID format", some "candidateId", none, none, none⟩, committed)
  | _, _, .malformed _ =>
      (.failure 400 ⟨"Invalid ID format", some "resumeId", none, none, none⟩, committed)
  | .valid j, .valid c, .valid r =>
      match findJob db j with
      | none =>
          (.failure 404 ⟨"Job not found", some "jobId", none, none, none⟩, committed)
      | some job =>
          match findCandidate db c with
          | none =>
              (.failure 404 ⟨"Candidate not found", some "candidateId", none, none, none⟩,
                committed)
          | some cand =>
              match findResume db r with
              | none =>
                  (.failure 404 ⟨"Resume not found", some "resumeId", none, none, none⟩,
                    committed)
              | some res =>
                  if res.candidateId ≠ c then
                    (.failure 400
                      ⟨"Resume does not belong to the specified candidate", some "resumeId",
                        none, none, none⟩, committed)
                  else
                    match db.apps.find? (fun a => a.jobId == j && a.candidateId == c) with
                    | some existing =>
                        (.failure 409
                          ⟨"Candidate has already applied for this job", none,
                            some existing.id, none, none⟩, committed)
                    | none =>
                        if committed.apps.any (fun a => a.candidateId == c && a.jobId == j) then
                          (.failure 409
                            ⟨"Candidate has already applied for this job", none, none, none,
                              none⟩, committed)
                        else
                          (.success 201
                            { id := newId, status := "applied", appliedAt := now,
                              daysOld := getDaysOld now now,
                              jobId := j, jobTitle := job.title,
                              jobLocation := job.location, jobSalary := job.salary,
                              candidateId := c, candidateName := cand.name,
                              candidateEmail := cand.email,
                              resumeId := r, resumeFileUrl := res.fileUrl,
                              createdAt := now },
                            { jobs := db.jobs, candidates := db.candidates,
                              resumes := db.resumes,
                              apps := committed.apps ++
                                [{ id := newId, jobId := j, candidateId := c, resumeId := r,
                                   status := "applied", appliedAt := now, createdAt := now,
                                   updatedAt := now }] })

/-- The PUT update-status handler of the application router.

Source order: presence check on `status` (JS falsy, so the empty string hits
this branch), then membership in `validStatuses` (400 listing the valid
values), then `findByIdAndUpdate` setting only `status` (plus the automatic
`updatedAt` timestamp), answered 404 when no record matches. Building the
200 body dereferences the populated job/candidate/resume; when one of them
is gone the JS handler throws after the update was already persisted, which
the catch block answers with the generic 500. -/
def updateStatus (db : Store) (id : Nat) (status : String) (now : Nat) :
    RouteResult UpdatedView × Store :=
  if status = "" then
    (.failure 400 ⟨"Status is required", some "status", none, none, none⟩, db)
  else if ¬ (validStatuses.contains status) then
    (.failure 400
      ⟨"Status must be one of: " ++ String.intercalate ", " validStatuses, some "status",
        none, some validStatuses, none⟩, db)
  else
    match db.apps.find? (fun a => a.id == id) with
    | none => (.failure 404 ⟨"Application not found", none, none, none, some id⟩, db)
    | some a =>
        let db' : Store :=
          { jobs := db.jobs, candidates := db.candidates, resumes := db.resumes,
            apps := db.apps.map (fun b =>
              if b.id == id then
                { id := b.id, jobId := b.jobId, candidateId := b.candidateId,
                  resumeId := b.resumeId, status := status, appliedAt := b.appliedAt,
                  createdAt := b.createdAt, updatedAt := now }
              else b) }
        match findJob db a.jobId, findCandidate db a.candidateId, findResume db a.resumeId with
        | some job, some cand, some res =>
            (.success 200
              { id := a.id, status := status, statusColor := getStatusColor status,
                appliedAt := a.appliedAt, daysOld := getDaysOld now a.appliedAt,
                jobId := a.jobId, jobTitle := job.title, jobLocation := job.location,
                jobSalary := job.salary,
                candidateId := a.candidateId, candidateName := cand.name,
                candidateEmail := cand.email,
                resumeId := a.resumeId, resumeFileUrl := res.fileUrl,
                updatedAt := now }, db')
        | _, _, _ =>
            (.failure 500 ⟨"Failed to update application status", none, none, none, none⟩, db')

/-- Run a sequence of update-status requests left to right; each element is
(application id, requested status, request time). -/
def runUpdates (db : Store) (us : List (Nat × String × Nat)) : Store :=
  us.foldl (fun s u => (updateStatus s u.1 u.2.1 u.2.2).2) db

/-- The uniqueness invariant of the compound index in models/Application.js:
no two stored applications share the (candidateId, jobId) pair. -/
def PairUnique (l : List Application) : Prop :=
  l.Pairwise (fun a b => ¬ (a.candidateId = b.candidateId ∧ a.jobId = b.jobId))

/-- The fields of an Application that the status-update handler must not
touch: everything except `status` and `updatedAt`. -/
def frameFields (a : Application) : Nat × Nat × Nat × Nat × Nat × Nat :=
  (a.id, a.jobId, a.candidateId, a.resumeId, a.appliedAt, a.createdAt)

/-- Spec-side salary-band relation, stated as the threshold ladder of the
spec (salary below 50000 is Entry, below 100000 Mid, below 200000 Senior,
otherwise Executive). -/
def BandSpec (s : Int) (b : String) : Prop :=
  (s < 50000 ∧ b = "Entry Level")
  ∨ (50000 ≤ s ∧ s < 100000 ∧ b = "Mid Level")
  ∨ (100000 ≤ s ∧ s < 200000 ∧ b = "Senior Level")
  ∨ (200000 ≤ s ∧ b = "Executive Level")

/-- Fixture: the job of the spec's concrete scenario. -/
def job1 : Job :=
  { id := 1, title := "Software Developer", description := "Build amazing applications",
    location := "New York", salary := 75000, employerId := 1 }

/-- Fixture: a candidate. -/
def cand1 : Candidate := { id := 1, name := "John Doe", email := "john@example.com" }

/-- Fixture: a second candidate. -/
def cand2 : Candidate := { id := 2, name := "Jane Roe", email := "jane@example.com" }

/-- Fixture: a resume owned by candidate 1. -/
def resume1 : Resume :=
  { id := 1, candidateId := 1, fileUrl := "https://example.com/resume.pdf" }

/-- Fixture: a resume owned by candidate 2. -/
def resume2 : Resume :=
  { id := 2, candidateId := 2, fileUrl := "https://example.com/second.pdf" }

/-- Fixture: an application of candidate 1 to job 1. -/
def app10 : Application :=
  { id := 10, jobId := 1, candidateId := 1, resumeId := 1, status := "applied",
    appliedAt := 1000, createdAt := 1000, updatedAt := 1000 }

/-- Fixture store in which candidate 1 has already applied to job 1. -/
def dbDup : Store :=
  { jobs := [job1], candidates := [cand1, cand2], resumes := [resume1, resume2],
    apps := [app10] }

/-- Fixture store with no applications yet. -/
def dbFresh : Store :=
  { jobs := [job1], candidates := [cand1, cand2], resumes := [resume1, resume2],
    apps := [] }

/-- Fixture store with no jobs; it still holds candidates and a resume owned
by candidate 2. -/
def dbNoJob : Store :=
  { jobs := [], candidates := [cand1, cand2], resumes := [resume2], apps := [] }

/-!
Helper lemmas about `lastIndexOfDotAux`.
-/

theorem lastIndexOfDotAux_no_dot (l : List Char) (i : Nat) (acc : Option Nat)
    (h : '.' ∉ l) : lastIndexOfDotAux l i acc = acc := by
  induction l generalizing i acc with
  | nil => rfl
  | cons c cs ih =>
      simp only [List.mem_cons, not_or] at h
      have hne : ¬ (c = '.') := fun hc => h.1 (Eq.symm hc)
      simp only [lastIndexOfDotAux]
      rw [if_neg hne]
      exact ih _ _ h.2

theorem lastIndexOfDotAux_append (l₁ l₂ : List Char) (i : Nat) (acc : Option Nat)
    (h : '.' ∉ l₂) :
    lastIndexOfDotAux (l₁ ++ '.' :: l₂) i acc = some (i + l₁.length) := by
  induction l₁ generalizing i acc with
  | nil =>
      simp only [List.nil_append, lastIndexOfDotAux, if_pos rfl]
      rw [lastIndexOfDotAux_no_dot l₂ _ _ h]
      simp
  | cons c cs ih =>
      have step : lastIndexOfDotAux ((c :: cs) ++ '.' :: l₂) i acc =
          lastIndexOfDotAux (cs ++ '.' :: l₂) (i + 1) (if c = '.' then some i else acc) := rfl
      rw [step, ih (i + 1) (if c = '.' then some i else acc)]
      simp only [List.length_cons]
      congr 1
      omega

/-- Claim C8: the derived salary band is a pure total function of the Job's
salary alone, following the threshold ladder of the spec, with the six
boundary values the claim lists. -/
theorem C8_salary_band :
    (∀ s : Int, BandSpec s (getSalaryRange s))
    ∧ getSalaryRange 49999 = "Entry Level"
    ∧ getSalaryRange 50000 = "Mid Level"
    ∧ getSalaryRange 99999 = "Mid Level"
    ∧ getSalaryRange 100000 = "Senior Level"
    ∧ getSalaryRange 199999 = "Senior Level"
    ∧ getSalaryRange 200000 = "Executive Level" := by
  constructor
  · intro s
    unfold BandSpec getSalaryRange
    split_ifs with h1 h2 h3
    · exact Or.inl ⟨h1, rfl⟩
    · exact Or.inr (Or.inl ⟨by omega, h2, rfl⟩)
    · exact Or.inr (Or.inr (Or.inl ⟨by omega, h3, rfl⟩))
    · exact Or.inr (Or.inr (Or.inr ⟨by omega, rfl⟩))
  · exact ⟨by decide, by decide, by decide, by decide, by decide, by decide⟩

/-- Claim C9, counterexample: the code lowercases the extension and answers
"unknown" when the only '.' sits at index 0, so it differs from the claimed
"substring after the last dot, unknown only when no dot" on ".profile"
(which contains a '.') and on "a.PDF" (whose suffix is uppercase). -/
theorem C9_cex :
    getFileExtension ".profile" ≠ claimedFileExtension ".profile"
    ∧ getFileExtension "a.PDF" ≠ claimedFileExtension "a.PDF"
    ∧ getFileExtension ".profile" = "unknown"
    ∧ claimedFileExtension ".profile" = "profile"
    ∧ getFileExtension "a.PDF" = "pdf"
    ∧ claimedFileExtension "a.PDF" = "PDF" := by decide

/-- Claim C9 as amended: the derived extension is the lowercased substring
after the last '.' when that '.' sits at a positive index; it is "unknown"
when the URL has no '.' at all, and also when the last '.' is the very first
character. -/
theorem C9_amended :
    (∀ a b : String, a ≠ "" → '.' ∉ b.data →
        getFileExtension (a ++ "." ++ b) = toLowerStr b)
    ∧ (∀ url : String, '.' ∉ url.data → getFileExtension url = "unknown")
    ∧ (∀ b : String, '.' ∉ b.data → getFileExtension ("." ++ b) = "unknown") := by
  refine ⟨?_, ?_, ?_⟩
  · intro a b ha hb
    have hdata : (a ++ "." ++ b).data = a.data ++ '.' :: b.data := by
      rw [String.data_append, String.data_append]
      simp
    have hlen : 0 < a.data.length := by
      rcases a with ⟨l⟩
      cases l with
      | nil => exact absurd rfl ha
      | cons x xs => simp
    have hlast : lastIndexOfDot (a ++ "." ++ b) = some a.data.length := by
      rw [lastIndexOfDot, hdata, lastIndexOfDotAux_append _ _ _ _ hb]
      simp
    have hdrop : (a ++ "." ++ b).data.drop (a.data.length + 1) = b.data := by
      rw [hdata, List.append_cons]
      exact List.drop_left' (by simp)
    simp only [getFileExtension, hlast, hdrop]
    rw [if_pos hlen]
  · intro url h
    have hnone : lastIndexOfDot url = none := lastIndexOfDotAux_no_dot _ _ _ h
    simp only [getFileExtension, hnone]
  · intro b hb
    have hdata : ("." ++ b).data = ([] : List Char) ++ '.' :: b.data := by
      rw [String.data_append]
      simp
    have hlast : lastIndexOfDot ("." ++ b) = some 0 := by
      rw [lastIndexOfDot, hdata, lastIndexOfDotAux_append _ _ _ _ hb]
      simp
    simp only [getFileExtension, hlast]
    simp

/-!
Helper lemmas about the create handler.
-/

theorem find?_pair_of_pairUnique {l : List Application} {a : Application} {j c : Nat}
    (hu : PairUnique l) (ha : a ∈ l) (hj : a.jobId = j) (hc : a.candidateId = c) :
    l.find? (fun b => b.jobId == j && b.candidateId == c) = some a := by
  induction l with
  | nil => cases ha
  | cons x xs ih =>
      have hup : List.Pairwise
          (fun a b => ¬ (a.candidateId = b.candidateId ∧ a.jobId = b.jobId)) (x :: xs) := hu
      have hu' := List.pairwise_cons.mp hup
      rcases List.mem_cons.mp ha with rfl | hmem
      · exact List.find?_cons_of_pos _ (by simp [hj, hc])
      · have hx : ¬ (x.candidateId = a.candidateId ∧ x.jobId = a.jobId) := hu'.1 a hmem
        have hpx : (x.jobId == j && x.candidateId == c) = false := by
          cases hxe : (x.jobId == j && x.candidateId == c) with
          | false => rfl
          | true =>
              exfalso
              simp only [Bool.and_eq_true, beq_iff_eq] at hxe
              exact hx ⟨hxe.2.trans hc.symm, hxe.1.trans hj.symm⟩
        rw [List.find?_cons_of_neg _ (by simp [hpx])]
        exact ih hu'.2 hmem

theorem create_valid_eq (db : Store) (raced : List Application) (j c r now nid : Nat)
    (job : Job) (cand : Candidate) (res : Resume)
    (hfj : findJob db j = some job) (hfc : findCandidate db c = some cand)
    (hfr : findResume db r = some res) (how : res.candidateId = c)
    (hdup : db.apps.find? (fun a => a.jobId == j && a.candidateId == c) = none) :
    createApplication db raced (.valid j) (.valid c) (.valid r) now nid =
      if (db.apps ++ raced).any (fun a => a.candidateId == c && a.jobId == j) then
        (.failure 409 ⟨"Candidate has already applied for this job", none, none, none, none⟩,
          { jobs := db.jobs, candidates := db.candidates, resumes := db.resumes,
            apps := db.apps ++ raced })
      else
        (.success 201
          { id := nid, status := "applied", appliedAt := now,
            daysOld := getDaysOld now now, jobId := j, jobTitle := job.title,
            jobLocation := job.location, jobSalary := job.salary, candidateId := c,
            candidateName := cand.name, candidateEmail := cand.email, resumeId := r,
            resumeFileUrl := res.fileUrl, createdAt := now },
          { jobs := db.jobs, candidates := db.candidates, resumes := db.resumes,
            apps := (db.apps ++ raced) ++
              [{ id := nid, jobId := j, candidateId := c, resumeId := r,
                 status := "applied", appliedAt := now, createdAt := now,
                 updatedAt := now }] }) := by
  simp only [createApplication, hfj, hfc, hfr, how, hdup]
  rw [if_neg (fun hcc : c ≠ c => hcc rfl)]

theorem create_cases (db : Store) (raced : List Application)
    (jq cq rq : ReqId) (now nid : Nat) :
    ((∃ st body, (createApplication db raced jq cq rq now nid).1 =
        RouteResult.failure st body)
      ∧ (createApplication db raced jq cq rq now nid).2.apps = db.apps ++ raced)
    ∨ (∃ j c r,
        jq = ReqId.valid j ∧ cq = ReqId.valid c ∧ rq = ReqId.valid r
        ∧ (∀ x ∈ db.apps ++ raced, ¬ (x.candidateId = c ∧ x.jobId = j))
        ∧ (∃ v, (createApplication db raced jq cq rq now nid).1 =
            RouteResult.success 201 v)
        ∧ (createApplication db raced jq cq rq now nid).2.apps =
            (db.apps ++ raced) ++
              [{ id := nid, jobId := j, candidateId := c, resumeId := r,
                 status := "applied", appliedAt := now, createdAt := now,
                 updatedAt := now }]) := by
  cases jq <;> cases cq <;> cases rq <;>
    try exact Or.inl ⟨⟨_, _, rfl⟩, rfl⟩
  case valid.valid.valid j c r =>
    rcases hfj : findJob db j with _ | job
    · have h1 : createApplication db raced (.valid j) (.valid c) (.valid r) now nid =
          (.failure 404 ⟨"Job not found", some "jobId", none, none, none⟩,
            { jobs := db.jobs, candidates := db.candidates, resumes := db.resumes,
              apps := db.apps ++ raced }) := by
        simp [createApplication, hfj]
      exact Or.inl ⟨⟨_, _, by rw [h1]⟩, by rw [h1]⟩
    rcases hfc : findCandidate db c with _ | cand
    · have h1 : createApplication db raced (.valid j) (.valid c) (.valid r) now nid =
          (.failure 404 ⟨"Candidate not found", some "candidateId", none, none, none⟩,
            { jobs := db.jobs, candidates := db.candidates, resumes := db.resumes,
              apps := db.apps ++ raced }) := by
        simp [createApplication, hfj, hfc]
      exact Or.inl ⟨⟨_, _, by rw [h1]⟩, by rw [h1]⟩
    rcases hfr : findResume db r with _ | res
    · have h1 : createApplication db raced (.valid j) (.valid c) (.valid r) now nid =
          (.failure 404 ⟨"Resume not found", some "resumeId", none, none, none⟩,
            { jobs := db.jobs, candidates := db.candidates, resumes := db.resumes,
              apps := db.apps ++ raced }) := by
        simp [createApplication, hfj, hfc, hfr]
      exact Or.inl ⟨⟨_, _, by rw [h1]⟩, by rw [h1]⟩
    by_cases how : res.candidateId = c
    · rcases hdup : db.apps.find? (fun a => a.jobId == j && a.candidateId == c) with _ | ex
      · have heq :=
          create_valid_eq db raced j c r now nid job cand res hfj hfc hfr how hdup
        by_cases hany :
            ((db.apps ++ raced).any fun a => a.candidateId == c && a.jobId == j) = true
        · refine Or.inl ⟨⟨409,
            ⟨"Candidate has already applied for this job", none, none, none, none⟩, ?_⟩, ?_⟩
          · rw [heq, if_pos hany]
          · rw [heq, if_pos hany]
        · refine Or.inr ⟨j, c, r, rfl, rfl, rfl, ?_,
            ⟨{ id := nid, status := "applied", appliedAt := now,
               daysOld := getDaysOld now now, jobId := j, jobTitle := job.title,
               jobLocation := job.location, jobSalary := job.salary, candidateId := c,
               candidateName := cand.name, candidateEmail := cand.email, resumeId := r,
               resumeFileUrl := res.fileUrl, createdAt := now }, ?_⟩, ?_⟩
          · intro x hx hcon
            apply hany
            rw [List.any_eq_true]
            exact ⟨x, hx, by simp [hcon.1, hcon.2]⟩
          · rw [heq, if_neg hany]
          · rw [heq, if_neg hany]
      · have h1 : createApplication db raced (.valid j) (.valid c) (.valid r) now nid =
            (.failure 409
              ⟨"Candidate has already applied for this job", none, some ex.id, none, none⟩,
              { jobs := db.jobs, candidates := db.candidates, resumes := db.resumes,
                apps := db.apps ++ raced }) := by
          simp [createApplication, hfj, hfc, hfr, how, hdup]
        exact Or.inl ⟨⟨_, _, by rw [h1]⟩, by rw [h1]⟩
    · have h1 : createApplication db raced (.valid j) (.valid c) (.valid r) now nid =
          (.failure 400
            ⟨"Resume does not belong to the specified candidate", some "resumeId",
              none, none, none⟩,
            { jobs := db.jobs, candidates := db.candidates, resumes := db.resumes,
              apps := db.apps ++ raced }) := by
        simp [createApplication, hfj, hfc, hfr, how]
      exact Or.inl ⟨⟨_, _, by rw [h1]⟩, by rw [h1]⟩

/-- Claim C9, amended-theorem witness at concrete inputs. -/
theorem C9_amended_witness :
    getFileExtension "https://example.com/resume.PDF" = "pdf"
    ∧ getFileExtension "resume" = "unknown"
    ∧ getFileExtension ".gitignore" = "unknown" :=
  ⟨by
      have h := C9_amended.1 "https://example.com/resume" "PDF" (by decide) (by decide)
      have e1 : ("https://example.com/resume" ++ "." ++ "PDF" : String) =
          "https://example.com/resume.PDF" := by decide
      have e2 : toLowerStr "PDF" = "pdf" := by decide
      rw [e1, e2] at h
      exact h,
   C9_amended.2.1 "resume" (by decide),
   by
      have h := C9_amended.2.2 "gitignore" (by decide)
      have e1 : ("." ++ "gitignore" : String) = ".gitignore" := by decide
      rw [e1] at h
      exact h⟩

/-- Claim C1, counterexample: candidate 1 already holds an application for
job 1, yet a Create for that same (candidateId, jobId) pair with a
nonexistent resumeId fails with the resume 404, not with DuplicateApplication
carrying the existing id — so "for any resumeId" is false as stated. -/
theorem C1_cex :
    (createApplication dbDup [] (.valid 1) (.valid 1) (.valid 99) 5000 11).1 =
      .failure 404 ⟨"Resume not found", some "resumeId", none, none, none⟩
    ∧ (createApplication dbDup [] (.valid 1) (.valid 1) (.valid 99) 5000 11).1 ≠
      .failure 409
        ⟨"Candidate has already applied for this job", none, some 10, none, none⟩ := by
  decide

/-- Claim C1 as amended: when the store already holds an application for the
(candidateId, jobId) pair, a Create with that pair and a resumeId that passes
the earlier checks (the resume exists and belongs to the candidate, and job
and candidate exist) fails with the duplicate 409 carrying the identifier of
the pre-existing record; and the handler preserves uniqueness of the
(candidateId, jobId) pair across all stored applications. -/
theorem C1_amended :
    (∀ (db : Store) (j c r now nid : Nat) (job : Job) (cand : Candidate) (res : Resume)
        (a : Application),
      PairUnique db.apps → a ∈ db.apps → a.candidateId = c → a.jobId = j →
      findJob db j = some job → findCandidate db c = some cand →
      findResume db r = some res → res.candidateId = c →
      (createApplication db [] (.valid j) (.valid c) (.valid r) now nid).1 =
        .failure 409
          ⟨"Candidate has already applied for this job", none, some a.id, none, none⟩)
    ∧ (∀ (db : Store) (raced : List Application) (jq cq rq : ReqId) (now nid : Nat),
        PairUnique (db.apps ++ raced) →
        PairUnique ((createApplication db raced jq cq rq now nid).2.apps)) := by
  constructor
  · intro db j c r now nid job cand res a hu hmem hac haj hj hc hr how
    have hfind := find?_pair_of_pairUnique hu hmem haj hac
    simp [createApplication, hj, hc, hr, how, hfind]
  · intro db raced jq cq rq now nid hu
    rcases create_cases db raced jq cq rq now nid with
      ⟨_, happs⟩ | ⟨j, c, r, _, _, _, hguard, _, happs⟩
    · rw [happs]; exact hu
    · rw [happs]
      have hup : List.Pairwise
          (fun a b => ¬ (a.candidateId = b.candidateId ∧ a.jobId = b.jobId))
          (db.apps ++ raced) := hu
      show List.Pairwise _ _
      rw [List.pairwise_append]
      refine ⟨hup, List.pairwise_singleton _ _, ?_⟩
      intro x hx b hb
      simp only [List.mem_singleton] at hb
      subst hb
      intro hcon
      exact hguard x hx ⟨hcon.1, hcon.2⟩

/-- Claim C1, amended-theorem witness: candidate 1 re-applies to job 1 with
the valid resume 1 and receives the 409 naming application 10; and the
handler preserves pair-uniqueness on a concrete race. -/
theorem C1_amended_witness :
    ((createApplication dbDup [] (.valid 1) (.valid 1) (.valid 1) 5000 11).1 =
      .failure 409
        ⟨"Candidate has already applied for this job", none, some 10, none, none⟩)
    ∧ PairUnique ((createApplication dbFresh [app10] (.valid 1) (.valid 1) (.valid 1)
        5000 11).2.apps) :=
  ⟨C1_amended.1 dbDup 1 1 1 5000 11 job1 cand1 resume1 app10
      (by simp [PairUnique, dbDup]) (by simp [dbDup]) rfl rfl rfl rfl rfl rfl,
   C1_amended.2 dbFresh [app10] (.valid 1) (.valid 1) (.valid 1) 5000 11
      (by simp [PairUnique, dbFresh])⟩

/-- Claim C2, counterexample: the resume exists and belongs to candidate 2,
not to the supplied candidate 1, but the job does not exist, and the handler
answers the job 404, not InvalidReference on resumeId — so "regardless of
whether the job, candidate, and resume each individually exist" is false as
stated. -/
theorem C2_cex :
    findResume dbNoJob 2 = some resume2
    ∧ resume2.candidateId ≠ 1
    ∧ (createApplication dbNoJob [] (.valid 5) (.valid 1) (.valid 2) 5000 11).1 =
        .failure 404 ⟨"Job not found", some "jobId", none, none, none⟩
    ∧ (createApplication dbNoJob [] (.valid 5) (.valid 1) (.valid 2) 5000 11).1 ≠
        .failure 400
          ⟨"Resume does not belong to the specified candidate", some "resumeId",
            none, none, none⟩ := by
  decide

/-- Claim C2 as amended: when the job and candidate exist and the referenced
resume exists but belongs to a different candidate, Create fails with the
invalid-reference 400 naming resumeId, and that response differs from every
404 not-found response. -/
theorem C2_amended :
    ∀ (db : Store) (raced : List Application) (j c r now nid : Nat)
      (job : Job) (cand : Candidate) (res : Resume),
      findJob db j = some job → findCandidate db c = some cand →
      findResume db r = some res → res.candidateId ≠ c →
      (createApplication db raced (.valid j) (.valid c) (.valid r) now nid).1 =
        .failure 400
          ⟨"Resume does not belong to the specified candidate", some "resumeId",
            none, none, none⟩
      ∧ ∀ body : ErrBody,
          (createApplication db raced (.valid j) (.valid c) (.valid r) now nid).1 ≠
            .failure 404 body := by
  intro db raced j c r now nid job cand res hj hc hr how
  have h1 : (createApplication db raced (.valid j) (.valid c) (.valid r) now nid).1 =
      .failure 400
        ⟨"Resume does not belong to the specified candidate", some "resumeId",
          none, none, none⟩ := by
    simp [createApplication, hj, hc, hr, how]
  exact ⟨h1, fun body => by rw [h1]; simp⟩

/-- Claim C2, amended-theorem witness: candidate 1 supplies the resume owned
by candidate 2 in an otherwise fully valid store. -/
theorem C2_amended_witness :
    (createApplication dbDup [] (.valid 1) (.valid 1) (.valid 2) 5000 11).1 =
      .failure 400
        ⟨"Resume does not belong to the specified candidate", some "resumeId",
          none, none, none⟩ :=
  (C2_amended dbDup [] 1 1 2 5000 11 job1 cand1 resume2 rfl rfl rfl (by decide)).1

/-- Claim C3: when job, candidate and resume all exist, the resume belongs
to the candidate, and no application with the (candidateId, jobId) pair is
stored, Create succeeds with 201: it appends exactly one new application
with status "applied" and appliedAt equal to the current time, and the
response carries the resolved job title/location/salary, candidate
name/email and resume fileUrl. -/
theorem C3_create_success :
    ∀ (db : Store) (j c r now nid : Nat) (job : Job) (cand : Candidate) (res : Resume),
      findJob db j = some job → findCandidate db c = some cand →
      findResume db r = some res → res.candidateId = c →
      db.apps.find? (fun a => a.jobId == j && a.candidateId == c) = none →
      (createApplication db [] (.valid j) (.valid c) (.valid r) now nid).1 =
        RouteResult.success 201
          { id := nid, status := "applied", appliedAt := now,
            daysOld := getDaysOld now now, jobId := j, jobTitle := job.title,
            jobLocation := job.location, jobSalary := job.salary, candidateId := c,
            candidateName := cand.name, candidateEmail := cand.email, resumeId := r,
            resumeFileUrl := res.fileUrl, createdAt := now }
      ∧ (createApplication db [] (.valid j) (.valid c) (.valid r) now nid).2.apps =
          db.apps ++
            [{ id := nid, jobId := j, candidateId := c, resumeId := r,
               status := "applied", appliedAt := now, createdAt := now,
               updatedAt := now }] := by
  intro db j c r now nid job cand res hj hc hr how hdup
  have hany : (db.apps.any fun a => a.candidateId == c && a.jobId == j) = false := by
    rw [List.any_eq_false]
    intro x hx
    have hnp := List.find?_eq_none.mp hdup x hx
    simp only [Bool.and_eq_true, beq_iff_eq] at hnp ⊢
    tauto
  have heq := create_valid_eq db [] j c r now nid job cand res hj hc hr how hdup
  rw [heq, if_neg (by simp [hany])]
  exact ⟨rfl, by simp⟩

/-- Claim C3, witness: the spec's concrete success scenario on the fresh
store. -/
theorem C3_create_success_witness :
    (createApplication dbFresh [] (.valid 1) (.valid 1) (.valid 1) 5000 11).1 =
      RouteResult.success 201
        { id := 11, status := "applied", appliedAt := 5000,
          daysOld := getDaysOld 5000 5000, jobId := 1, jobTitle := job1.title,
          jobLocation := job1.location, jobSalary := job1.salary, candidateId := 1,
          candidateName := cand1.name, candidateEmail := cand1.email, resumeId := 1,
          resumeFileUrl := resume1.fileUrl, createdAt := 5000 }
    ∧ (createApplication dbFresh [] (.valid 1) (.valid 1) (.valid 1) 5000 11).2.apps =
        dbFresh.apps ++
          [{ id := 11, jobId := 1, candidateId := 1, resumeId := 1,
             status := "applied", appliedAt := 5000, createdAt := 5000,
             updatedAt := 5000 }] :=
  C3_create_success dbFresh 1 1 1 5000 11 job1 cand1 resume1 rfl rfl rfl rfl rfl

/-- Claim C7: when several validation conditions fail at once, the single
reported failure is the first failing check in the fixed order job
existence, candidate existence, resume existence, resume ownership,
duplicate check; each conjunct pins the response while leaving every later
condition completely unconstrained (in particular, when both job and
candidate are missing the error names jobId). The lookups are pure reads,
so the concurrent fetch in the source cannot change this order. -/
theorem C7_validation_order :
    ∀ (db : Store) (raced : List Application) (j c r now nid : Nat),
      (findJob db j = none →
        (createApplication db raced (.valid j) (.valid c) (.valid r) now nid).1 =
          .failure 404 ⟨"Job not found", some "jobId", none, none, none⟩)
      ∧ (∀ job, findJob db j = some job → findCandidate db c = none →
          (createApplication db raced (.valid j) (.valid c) (.valid r) now nid).1 =
            .failure 404 ⟨"Candidate not found", some "candidateId", none, none, none⟩)
      ∧ (∀ job cand, findJob db j = some job → findCandidate db c = some cand →
          findResume db r = none →
          (createApplication db raced (.valid j) (.valid c) (.valid r) now nid).1 =
            .failure 404 ⟨"Resume not found", some "resumeId", none, none, none⟩)
      ∧ (∀ job cand res, findJob db j = some job → findCandidate db c = some cand →
          findResume db r = some res → res.candidateId ≠ c →
          (createApplication db raced (.valid j) (.valid c) (.valid r) now nid).1 =
            .failure 400
              ⟨"Resume does not belong to the specified candidate", some "resumeId",
                none, none, none⟩)
      ∧ (∀ job cand res existing, findJob db j = some job →
          findCandidate db c = some cand →
          findResume db r = some res → res.candidateId = c →
          db.apps.find? (fun a => a.jobId == j && a.candidateId == c) = some existing →
          (createApplication db raced (.valid j) (.valid c) (.valid r) now nid).1 =
            .failure 409
              ⟨"Candidate has already applied for this job", none, some existing.id,
                none, none⟩) := by
  intro db raced j c r now nid
  refine ⟨?_, ?_, ?_, ?_, ?_⟩
  · intro h
    simp [createApplication, h]
  · intro job hj h
    simp [createApplication, hj, h]
  · intro job cand hj hc h
    simp [createApplication, hj, hc, h]
  · intro job cand res hj hc hr how
    simp [createApplication, hj, hc, hr, how]
  · intro job cand res ex hj hc hr how hdup
    simp [createApplication, hj, hc, hr, how, hdup]

/-- Claim C7, witness: on a store with no job, the report names jobId even
though candidate 7 and resume 9 are missing as well; and each later check
fires once the earlier ones pass. -/
theorem C7_validation_order_witness :
    ((createApplication dbNoJob [] (.valid 5) (.valid 7) (.valid 9) 1 2).1 =
      .failure 404 ⟨"Job not found", some "jobId", none, none, none⟩)
    ∧ ((createApplication dbDup [] (.valid 1) (.valid 99) (.valid 98) 1 2).1 =
      .failure 404 ⟨"Candidate not found", some "candidateId", none, none, none⟩)
    ∧ ((createApplication dbDup [] (.valid 1) (.valid 1) (.valid 99) 1 2).1 =
      .failure 404 ⟨"Resume not found", some "resumeId", none, none, none⟩)
    ∧ ((createApplication dbDup [] (.valid 1) (.valid 1) (.valid 2) 1 2).1 =
      .failure 400
        ⟨"Resume does not belong to the specified candidate", some "resumeId",
          none, none, none⟩)
    ∧ ((createApplication dbDup [] (.valid 1) (.valid 1) (.valid 1) 1 2).1 =
      .failure 409
        ⟨"Candidate has already applied for this job", none, some 10, none, none⟩) :=
  ⟨(C7_validation_order dbNoJob [] 5 7 9 1 2).1 rfl,
   (C7_validation_order dbDup [] 1 99 98 1 2).2.1 job1 rfl rfl,
   (C7_validation_order dbDup [] 1 1 99 1 2).2.2.1 job1 cand1 rfl rfl rfl,
   (C7_validation_order dbDup [] 1 1 2 1 2).2.2.2.1 job1 cand1 resume2 rfl rfl rfl
      (by decide),
   (C7_validation_order dbDup [] 1 1 1 1 2).2.2.2.2 job1 cand1 resume1 app10 rfl rfl rfl
      rfl rfl⟩

/-- Claim C10: the create handler is atomic on failure — every validation
and the duplicate check run strictly before the single save, so whenever the
response is an error (missing id, malformed id, missing referenced entity,
ownership mismatch, or duplicate), the stored applications are exactly what
they were before the request. -/
theorem C10_atomic_failure :
    ∀ (db : Store) (jq cq rq : ReqId) (now nid st : Nat) (body : ErrBody),
      (createApplication db [] jq cq rq now nid).1 = .failure st body →
      (createApplication db [] jq cq rq now nid).2.apps = db.apps := by
  intro db jq cq rq now nid st body h
  rcases create_cases db [] jq cq rq now nid with
    ⟨_, happs⟩ | ⟨j, c, r, _, _, _, _, ⟨v, hs⟩, _⟩
  · rw [happs, List.append_nil]
  · rw [hs] at h
    cases h

/-- Claim C10, witness: a request with all three ids missing leaves the
store's applications untouched. -/
theorem C10_atomic_failure_witness :
    (createApplication dbDup [] .missing .missing .missing 1 2).2.apps = dbDup.apps :=
  C10_atomic_failure dbDup .missing .missing .missing 1 2 400
    ⟨"Job ID is required", some "jobId", none, none, none⟩ rfl

/-- Claim C4, counterexample: the empty string is a status outside
{applied, shortlisted, rejected}, yet the handler answers the
"Status is required" 400 (the JS falsy presence check), which does not
enumerate the valid values; the store is still left unchanged. -/
theorem C4_cex :
    ("" ∈ validStatuses → False)
    ∧ (updateStatus dbDup 10 "" 999).1 =
        .failure 400 ⟨"Status is required", some "status", none, none, none⟩
    ∧ (updateStatus dbDup 10 "" 999).1 ≠
        .failure 400
          ⟨"Status must be one of: applied, shortlisted, rejected", some "status", none,
            some validStatuses, none⟩
    ∧ (updateStatus dbDup 10 "" 999).2 = dbDup := by
  decide

/-- Claim C4 as amended: for every non-empty newStatus outside
{applied, shortlisted, rejected}, UpdateStatus fails with the 400 whose
message and validValues enumerate the three valid values, and the store —
in particular every stored application — is left completely unchanged; an
empty (JS-falsy) newStatus instead fails with the missing-field 400, also
without touching the store. -/
theorem C4_amended :
    ∀ (db : Store) (id : Nat) (status : String) (now : Nat),
      status ≠ "" → status ∉ validStatuses →
      (updateStatus db id status now).1 =
        .failure 400
          ⟨"Status must be one of: applied, shortlisted, rejected", some "status", none,
            some validStatuses, none⟩
      ∧ (updateStatus db id status now).2 = db := by
  intro db id status now h1 h2
  have hc : ¬ (validStatuses.contains status = true) := by
    rw [List.elem_iff]
    exact h2
  have e1 : updateStatus db id status now =
      (.failure 400
        ⟨"Status must be one of: applied, shortlisted, rejected", some "status", none,
          some validStatuses, none⟩, db) := by
    unfold updateStatus
    rw [if_neg h1, if_pos hc]
    rfl
  exact ⟨by rw [e1], by rw [e1]⟩

/-- Claim C4, amended-theorem witness: the status "approved" gets the
enum 400 and leaves the store unchanged. -/
theorem C4_amended_witness :
    (updateStatus dbDup 10 "approved" 999).1 =
      .failure 400
        ⟨"Status must be one of: applied, shortlisted, rejected", some "status", none,
          some validStatuses, none⟩
    ∧ (updateStatus dbDup 10 "approved" 999).2 = dbDup :=
  C4_amended dbDup 10 "approved" 999 (by decide) (by decide)

/-- Frame lemma: one update-status request never changes the id, jobId,
candidateId, resumeId, appliedAt or createdAt of any stored application. -/
theorem updateStatus_frame (db : Store) (id : Nat) (status : String) (now : Nat) :
    ((updateStatus db id status now).2).apps.map frameFields = db.apps.map frameFields := by
  have key : ∀ l : List Application,
      (l.map (fun b =>
        if b.id == id then
          ({ id := b.id, jobId := b.jobId, candidateId := b.candidateId,
             resumeId := b.resumeId, status := status, appliedAt := b.appliedAt,
             createdAt := b.createdAt, updatedAt := now } : Application)
        else b)).map frameFields = l.map frameFields := by
    intro l
    rw [List.map_map]
    apply List.map_congr_left
    intro b _
    by_cases hb : b.id = id <;> simp [frameFields, hb]
  unfold updateStatus
  split_ifs with h1 h2
  all_goals try rfl
  rcases hf : db.apps.find? (fun a => a.id == id) with _ | a
  · rw [hf]
  · rw [hf]
    dsimp only
    split
    · exact key db.apps
    · exact key db.apps

/-- Claim C5: across every finite sequence of UpdateStatus requests, in any
order, every stored application keeps its appliedAt (and its id, jobId,
candidateId, resumeId and createdAt) exactly as at creation; and one
successful UpdateStatus overwrites only the status field while setting the
last-modification timestamp to the request time. -/
theorem C5_appliedAt_preserved :
    (∀ (db : Store) (us : List (Nat × String × Nat)),
      (runUpdates db us).apps.map frameFields = db.apps.map frameFields)
    ∧ (∀ (db : Store) (id : Nat) (status : String) (now : Nat) (a : Application),
        status ≠ "" → validStatuses.contains status = true →
        db.apps.find? (fun b => b.id == id) = some a →
        ((updateStatus db id status now).2).apps.find? (fun b => b.id == id) =
          some { id := a.id, jobId := a.jobId, candidateId := a.candidateId,
                 resumeId := a.resumeId, status := status, appliedAt := a.appliedAt,
                 createdAt := a.createdAt, updatedAt := now }) := by
  constructor
  · intro db us
    induction us generalizing db with
    | nil => rfl
    | cons u us ih =>
        have step : runUpdates db (u :: us) =
            runUpdates (updateStatus db u.1 u.2.1 u.2.2).2 us := rfl
        rw [step, ih, updateStatus_frame]
  · intro db id status now a h1 h2 hf
    have hc : ¬ (¬ (validStatuses.contains status = true)) := fun hn => hn h2
    have hpa := List.find?_some hf
    have hkey : (db.apps.map (fun b =>
        if b.id == id then
          ({ id := b.id, jobId := b.jobId, candidateId := b.candidateId,
             resumeId := b.resumeId, status := status, appliedAt := b.appliedAt,
             createdAt := b.createdAt, updatedAt := now } : Application)
        else b)).find? (fun b => b.id == id) =
        some { id := a.id, jobId := a.jobId, candidateId := a.candidateId,
               resumeId := a.resumeId, status := status, appliedAt := a.appliedAt,
               createdAt := a.createdAt, updatedAt := now } := by
      rw [List.find?_map]
      have hcomp : ((fun b : Application => b.id == id) ∘ (fun b =>
          if b.id == id then
            ({ id := b.id, jobId := b.jobId, candidateId := b.candidateId,
               resumeId := b.resumeId, status := status, appliedAt := b.appliedAt,
               createdAt := b.createdAt, updatedAt := now } : Application)
          else b)) = fun b : Application => b.id == id := by
        funext b
        by_cases hb : b.id = id <;> simp [hb]
      rw [hcomp, hf]
      have hpa' : a.id = id := by simpa using hpa
      simp [hpa']
    unfold updateStatus
    rw [if_neg h1, if_neg hc, hf]
    dsimp only
    split
    · exact hkey
    · exact hkey

/-- Claim C5, witness: three successive status updates on application 10
leave id, jobId, candidateId, resumeId, appliedAt and createdAt untouched;
a single successful update stores the new status with updatedAt set to the
request time. -/
theorem C5_appliedAt_preserved_witness :
    (runUpdates dbDup
        [(10, "shortlisted", 2000), (10, "rejected", 3000), (10, "applied", 4000)]).apps.map
        frameFields = dbDup.apps.map frameFields
    ∧ ((updateStatus dbDup 10 "shortlisted" 2000).2).apps.find? (fun b => b.id == 10) =
        some { id := 10, jobId := 1, candidateId := 1, resumeId := 1,
               status := "shortlisted", appliedAt := 1000, createdAt := 1000,
               updatedAt := 2000 } :=
  ⟨C5_appliedAt_preserved.1 dbDup
      [(10, "shortlisted", 2000), (10, "rejected", 3000), (10, "applied", 4000)],
   C5_appliedAt_preserved.2 dbDup 10 "shortlisted" 2000 app10 (by decide) (by decide) rfl⟩

/-- Claim C6, counterexample: the duplicate pre-check 409 carries
existingApplicationId while the store-level duplicate-key (code 11000) 409
does not, so the two response shapes are not identical. -/
theorem C6_cex :
    (createApplication dbDup [] (.valid 1) (.valid 1) (.valid 1) 5000 11).1 =
      .failure 409
        ⟨"Candidate has already applied for this job", none, some 10, none, none⟩
    ∧ (createApplication dbFresh [app10] (.valid 1) (.valid 1) (.valid 1) 5000 11).1 =
      .failure 409
        ⟨"Candidate has already applied for this job", none, none, none, none⟩
    ∧ (⟨"Candidate has already applied for this job", none, some 10, none, none⟩ : ErrBody)
      ≠ ⟨"Candidate has already applied for this job", none, none, none, none⟩ := by
  decide

/-- Claim C6 as amended: a Create that loses the store-level uniqueness race
is answered with the same HTTP status (409) and the same message as the
pre-check DuplicateApplication response, but its body omits
existingApplicationId, which only the pre-check response carries. -/
theorem C6_amended :
    ∀ (db : Store) (raced : List Application) (j c r now nid : Nat)
      (job : Job) (cand : Candidate) (res : Resume),
      findJob db j = some job → findCandidate db c = some cand →
      findResume db r = some res → res.candidateId = c →
      db.apps.find? (fun a => a.jobId == j && a.candidateId == c) = none →
      ((db.apps ++ raced).any fun a => a.candidateId == c && a.jobId == j) = true →
      (createApplication db raced (.valid j) (.valid c) (.valid r) now nid).1 =
        .failure 409
          ⟨"Candidate has already applied for this job", none, none, none, none⟩ := by
  intro db raced j c r now nid job cand res hj hc hr how hdup hany
  rw [create_valid_eq db raced j c r now nid job cand res hj hc hr how hdup,
    if_pos hany]

/-- Claim C6, amended-theorem witness: a concrete lost race on the fresh
store. -/
theorem C6_amended_witness :
    (createApplication dbFresh [app10] (.valid 1) (.valid 1) (.valid 1) 5000 11).1 =
      .failure 409
        ⟨"Candidate has already applied for this job", none, none, none, none⟩ :=
  C6_amended dbFresh [app10] 1 1 1 5000 11 job1 cand1 resume1 rfl rfl rfl rfl rfl rfl
